import Mathlib

/-
Verification of the Unboxed product-parser service against its specification.

The JavaScript source is embedded shallowly:
  * strings are lists of characters;
  * the regular expressions of productService are modelled by a small
    backtracking matcher over the exact atom sequences of each pattern
    (case-insensitive literals, greedy and lazy character-class stars,
    a single capture group, alternation of literals);
  * JSON.parse is modelled by a strict fueled parser whose numbers keep
    their decimal lexeme;
  * the two network calls (page fetch, chat completion) are external
    inputs, so each is passed to the model as an outcome value: either
    the text it produced or the message of the error it threw;
  * the repository holds two copies of productService.js (one under an
    unknown path); both extractProductData implementations are embedded,
    as extractProductDataUnnamed and extractProductDataService, and the
    HTTP handler uses the service one that server.js imports.

All recursion is structural (explicit fuel), so every definition
evaluates by rfl and decide.
-/

namespace Unboxed

/-! Model of the JavaScript regex subset used by productService. -/

def l (s : String) : List Char := s.data

def lowerEq (a b : Char) : Bool := a.toLower == b.toLower

/-- Case-insensitive literal test at the head of the input. -/
def ciStarts : List Char → List Char → Bool
  | [], _ => true
  | _ :: _, [] => false
  | a :: as, b :: bs => lowerEq a b && ciStarts as bs

/-- Case-sensitive literal test at the head of the input. -/
def csStarts : List Char → List Char → Bool
  | [], _ => true
  | _ :: _, [] => false
  | a :: as, b :: bs => (a == b) && csStarts as bs

/-- JS String.prototype.includes. -/
def hasSub : List Char → List Char → Bool
  | n, [] => n.isEmpty
  | n, c :: t => csStarts n (c :: t) || hasSub n t

def leadCount (p : Char → Bool) : List Char → Nat
  | [] => 0
  | c :: cs => if p c then leadCount p cs + 1 else 0

def firstSome {α : Type} : List (Option α) → Option α
  | [] => none
  | some a :: _ => some a
  | none :: rest => firstSome rest

/-- One atom of a regular expression, in the fragment the source uses. -/
inductive Atom where
  | lit (s : List Char)
  | alts (ss : List (List Char))
  | optLit (s : List Char)
  | one (p : Char → Bool)
  | starG (p : Char → Bool)
  | starL (p : Char → Bool)
  | grp (p : Char → Bool)
  | gnum

/-- Greedy star: try the longest expansion first, backtracking downwards. -/
def tryFromTop (m : List Char → Option (Nat × Option (List Char))) (cs : List Char) :
    Nat → Option (Nat × Option (List Char))
  | 0 => m cs
  | k + 1 =>
    match m (cs.drop (k + 1)) with
    | some r => some (k + 1 + r.1, r.2)
    | none => tryFromTop m cs k

/-- Lazy star: try the shortest expansion first, growing one character at a time. -/
def tryLazyAux (p : Char → Bool) (m : List Char → Option (Nat × Option (List Char))) :
    Nat → List Char → Option (Nat × Option (List Char))
  | 0, cs => m cs
  | fuel + 1, cs =>
    match m cs with
    | some r => some r
    | none =>
      match cs with
      | [] => none
      | c :: cs' => if p c then (tryLazyAux p m fuel cs').map (fun r => (r.1 + 1, r.2)) else none

/-- Lazy capturing star: like tryLazyAux but records the consumed characters. -/
def tryGrpAux (p : Char → Bool) (m : List Char → Option (Nat × Option (List Char))) :
    Nat → List Char → Option (Nat × Option (List Char))
  | 0, cs => (m cs).map (fun r => (r.1, some []))
  | fuel + 1, cs =>
    match m cs with
    | some r => some (r.1, some [])
    | none =>
      match cs with
      | [] => none
      | c :: cs' =>
        if p c then (tryGrpAux p m fuel cs').map (fun r => (r.1 + 1, r.2.map (c :: ·))) else none

/-- Anchored matcher: consumed length and the contents of capture group 1, if any. -/
def matchAtoms : Nat → List Atom → List Char → Option (Nat × Option (List Char))
  | 0, _, _ => none
  | _ + 1, [], _ => some (0, none)
  | fuel + 1, Atom.lit s :: rest, cs =>
    if ciStarts s cs then
      (matchAtoms fuel rest (cs.drop s.length)).map (fun r => (s.length + r.1, r.2))
    else none
  | fuel + 1, Atom.alts ss :: rest, cs =>
    firstSome (ss.map (fun s =>
      if ciStarts s cs then
        (matchAtoms fuel rest (cs.drop s.length)).map (fun r => (s.length + r.1, r.2))
      else none))
  | fuel + 1, Atom.optLit s :: rest, cs =>
    if ciStarts s cs then
      match matchAtoms fuel rest (cs.drop s.length) with
      | some r => some (s.length + r.1, r.2)
      | none => matchAtoms fuel rest cs
    else matchAtoms fuel rest cs
  | fuel + 1, Atom.one p :: rest, cs =>
    match cs with
    | [] => none
    | c :: cs' => if p c then (matchAtoms fuel rest cs').map (fun r => (1 + r.1, r.2)) else none
  | fuel + 1, Atom.starG p :: rest, cs =>
    tryFromTop (fun t => matchAtoms fuel rest t) cs (leadCount p cs)
  | fuel + 1, Atom.starL p :: rest, cs =>
    tryLazyAux p (fun t => matchAtoms fuel rest t) cs.length cs
  | fuel + 1, Atom.grp p :: rest, cs =>
    tryGrpAux p (fun t => matchAtoms fuel rest t) cs.length cs
  | fuel + 1, Atom.gnum :: rest, cs =>
    let d1 := leadCount Char.isDigit cs
    if d1 == 0 then none
    else
      let cs1 := cs.drop d1
      let dn : Nat := match cs1 with | '.' :: _ => 1 | _ => 0
      let d2 := leadCount Char.isDigit (cs1.drop dn)
      let consumed := d1 + dn + d2
      (matchAtoms fuel rest (cs.drop consumed)).map (fun r => (consumed + r.1, some (cs.take consumed)))

/-- Leftmost search: start index, match length, capture. -/
def searchFrom : List Atom → List Char → Option (Nat × Nat × Option (List Char))
  | pat, [] => (matchAtoms (pat.length + 1) pat []).map (fun r => (0, r.1, r.2))
  | pat, c :: cs =>
    match matchAtoms (pat.length + 1) pat (c :: cs) with
    | some r => some (0, r.1, r.2)
    | none => (searchFrom pat cs).map (fun r => (r.1 + 1, r.2))

/-- JS String.prototype.match without the g flag: full match text and group 1. -/
def reMatch (pat : List Atom) (cs : List Char) : Option (List Char × Option (List Char)) :=
  (searchFrom pat cs).map (fun r => ((cs.drop r.1).take r.2.1, r.2.2))

def reTest (pat : List Atom) (cs : List Char) : Bool := (searchFrom pat cs).isSome

def reTestAny (pats : List (List Atom)) (cs : List Char) : Bool := pats.any (reTest · cs)

def searchAllAux : Nat → List Atom → List Char → List (List Char)
  | 0, _, _ => []
  | fuel + 1, pat, cs =>
    match searchFrom pat cs with
    | none => []
    | some r => ((cs.drop r.1).take r.2.1) :: searchAllAux fuel pat (cs.drop (r.1 + max r.2.1 1))

/-- JS String.prototype.match with the g flag: all full match texts. -/
def searchAll (pat : List Atom) (cs : List Char) : List (List Char) :=
  searchAllAux (cs.length + 1) pat cs

def replAllAux : Nat → List Atom → List Char → List Char → List Char
  | 0, _, _, cs => cs
  | fuel + 1, pat, repl, cs =>
    match searchFrom pat cs with
    | none => cs
    | some r => cs.take r.1 ++ repl ++ replAllAux fuel pat repl (cs.drop (r.1 + max r.2.1 1))

/-- JS String.prototype.replace with the g flag and a constant replacement. -/
def replAll (pat : List Atom) (repl cs : List Char) : List Char :=
  replAllAux (cs.length + 1) pat repl cs

-- character classes
def isWsJS (c : Char) : Bool :=
  c == ' ' || c == '\t' || c == '\n' || c == '\r' || c == '\x0b' || c == '\x0c'
def notGt (c : Char) : Bool := c != '>'
def dotCh (c : Char) : Bool := c != '\n' && c != '\r' && c != '\u2028' && c != '\u2029'
def anyCh (_ : Char) : Bool := true
def quoteCh (c : Char) : Bool := c == '"' || c == '|' || c == '\''
def quoteSemiCh (c : Char) : Bool := c == ';' || c == '"' || c == '|' || c == '\''
def wsDashCh (c : Char) : Bool := isWsJS c || c == '-'

-- ## Patterns of the source regexes

def patH1 : List Atom :=
  [Atom.lit (l "<h1"), Atom.starG notGt, Atom.lit (l ">"), Atom.grp dotCh, Atom.lit (l "</h1>")]


def patSelectSize : List Atom :=
  [Atom.lit (l "<select"), Atom.starG notGt, Atom.alts [l "size", l "variant"],
   Atom.starG notGt, Atom.lit (l ">"), Atom.grp anyCh, Atom.lit (l "</select>")]


def patOption : List Atom :=
  [Atom.lit (l "<option"), Atom.starG notGt, Atom.lit (l ">"), Atom.grp dotCh, Atom.lit (l "</option>")]


def patTag : List Atom := [Atom.lit (l "<"), Atom.starG notGt, Atom.lit (l ">")]


def patStyleBg : List Atom :=
  [Atom.lit (l "style="), Atom.one quoteCh, Atom.starL dotCh, Atom.lit (l "background"),
   Atom.optLit (l "-color"), Atom.lit (l ":"), Atom.starG isWsJS, Atom.grp dotCh,
   Atom.one quoteSemiCh]


def patDollar : List Atom := [Atom.lit (l "$"), Atom.gnum]

def patsUnavail : List (List Atom) :=
  [[Atom.lit (l "disabled")],
   [Atom.lit (l "sold"), Atom.starG wsDashCh, Atom.lit (l "out")],
   [Atom.lit (l "out"), Atom.starG wsDashCh, Atom.lit (l "of"), Atom.starG wsDashCh, Atom.lit (l "stock")],
   [Atom.lit (l "unavailable")]]


-- ## String helpers (JS semantics)

def trimJs (cs : List Char) : List Char :=
  ((cs.dropWhile isWsJS).reverse.dropWhile isWsJS).reverse

def lowerL (cs : List Char) : List Char := cs.map Char.toLower

def splitWsAux : Nat → List Char → List Char → List (List Char)
  | 0, acc, _ => [acc.reverse]
  | _ + 1, acc, [] => [acc.reverse]
  | fuel + 1, acc, c :: cs =>
    if isWsJS c then acc.reverse :: splitWsAux fuel [] (cs.dropWhile isWsJS)
    else splitWsAux fuel (c :: acc) cs

/-- JS String.prototype.split on a whitespace-run regex. -/
def splitWs (cs : List Char) : List (List Char) := splitWsAux (cs.length + 1) [] cs

def dedupFirstAux : List (List Char) → List (List Char) → List (List Char)
  | _, [] => []
  | seen, x :: xs =>
    if x ∈ seen then dedupFirstAux seen xs
    else x :: dedupFirstAux (x :: seen) xs

/-- JS spread of a Set built from an array: keep first occurrences, in order. -/
def dedupFirst (xs : List (List Char)) : List (List Char) := dedupFirstAux [] xs

def joinSep (sep : List Char) : List (List Char) → List Char
  | [] => []
  | [x] => x
  | x :: xs => x ++ sep ++ joinSep sep xs

def allDigits (cs : List Char) : Bool := !cs.isEmpty && cs.all Char.isDigit

-- ## Remaining patterns

def patTitleTag : List Atom :=
  [Atom.lit (l "<title"), Atom.starG notGt, Atom.lit (l ">"), Atom.grp dotCh, Atom.lit (l "</title>")]
def patDivProductTitle : List Atom :=
  [Atom.lit (l "<div"), Atom.starG notGt, Atom.lit (l "product-title"), Atom.starG notGt,
   Atom.lit (l ">"), Atom.grp dotCh, Atom.lit (l "</div>")]
def patPriceSpan : List Atom :=
  [Atom.lit (l "class="), Atom.one quoteCh, Atom.lit (l "price"), Atom.one quoteCh,
   Atom.starG notGt, Atom.lit (l ">"), Atom.grp dotCh, Atom.lit (l "</span>")]
def patPriceDiv : List Atom :=
  [Atom.lit (l "class="), Atom.one quoteCh, Atom.lit (l "product-price"), Atom.one quoteCh,
   Atom.starG notGt, Atom.lit (l ">"), Atom.grp dotCh, Atom.lit (l "</div>")]
def patDescDiv : List Atom :=
  [Atom.lit (l "<div"), Atom.starG notGt, Atom.alts [l "product-description", l "description"],
   Atom.starG notGt, Atom.lit (l ">"), Atom.grp anyCh, Atom.lit (l "</div>")]
def patMetaDesc : List Atom :=
  [Atom.lit (l "<meta"), Atom.starG notGt, Atom.lit (l "description"), Atom.starG notGt,
   Atom.lit (l "content="), Atom.one quoteCh, Atom.grp dotCh, Atom.one quoteCh]
def patNavBread : List Atom :=
  [Atom.lit (l "<nav"), Atom.starG notGt, Atom.lit (l "breadcrumb"), Atom.starG notGt,
   Atom.lit (l ">"), Atom.grp anyCh, Atom.lit (l "</nav>")]
def patMetaCat : List Atom :=
  [Atom.lit (l "<meta"), Atom.starG notGt, Atom.lit (l "product:category"), Atom.starG notGt,
   Atom.lit (l "content="), Atom.one quoteCh, Atom.grp dotCh, Atom.one quoteCh]

def patDivSize : List Atom :=
  [Atom.lit (l "<div"), Atom.starG notGt, Atom.alts [l "size", l "variant"], Atom.starG notGt,
   Atom.lit (l ">"), Atom.grp anyCh, Atom.lit (l "</div>")]
def patUlSize : List Atom :=
  [Atom.lit (l "<ul"), Atom.starG notGt, Atom.alts [l "size", l "variant"], Atom.starG notGt,
   Atom.lit (l ">"), Atom.grp anyCh, Atom.lit (l "</ul>")]
def patLi : List Atom :=
  [Atom.lit (l "<li"), Atom.starG notGt, Atom.lit (l ">"), Atom.grp dotCh, Atom.lit (l "</li>")]
def patButton : List Atom :=
  [Atom.lit (l "<button"), Atom.starG notGt, Atom.lit (l ">"), Atom.grp dotCh, Atom.lit (l "</button>")]
def patAnchor : List Atom :=
  [Atom.lit (l "<a"), Atom.starG notGt, Atom.lit (l ">"), Atom.grp dotCh, Atom.lit (l "</a>")]
def patDivOption : List Atom :=
  [Atom.lit (l "<div"), Atom.starG notGt, Atom.lit (l "option"), Atom.starG notGt,
   Atom.lit (l ">"), Atom.grp dotCh, Atom.lit (l "</div>")]
def patValue : List Atom :=
  [Atom.lit (l "value="), Atom.one quoteCh, Atom.grp dotCh, Atom.one quoteCh]

def patSelectColor : List Atom :=
  [Atom.lit (l "<select"), Atom.starG notGt, Atom.alts [l "color", l "colour"], Atom.starG notGt,
   Atom.lit (l ">"), Atom.grp anyCh, Atom.lit (l "</select>")]
def patDivColor : List Atom :=
  [Atom.lit (l "<div"), Atom.starG notGt, Atom.alts [l "color", l "colour"], Atom.starG notGt,
   Atom.lit (l ">"), Atom.grp anyCh, Atom.lit (l "</div>")]
def patUlColor : List Atom :=
  [Atom.lit (l "<ul"), Atom.starG notGt, Atom.alts [l "color", l "colour"], Atom.starG notGt,
   Atom.lit (l ">"), Atom.grp anyCh, Atom.lit (l "</ul>")]
def patDivSwatch : List Atom :=
  [Atom.lit (l "<div"), Atom.starG notGt, Atom.lit (l "swatch"), Atom.starG notGt,
   Atom.lit (l ">"), Atom.grp anyCh, Atom.lit (l "</div>")]
def patDivSwatchItem : List Atom :=
  [Atom.lit (l "<div"), Atom.starG notGt, Atom.lit (l "swatch"), Atom.starG notGt,
   Atom.lit (l ">"), Atom.grp dotCh, Atom.lit (l "</div>")]
def patSpanColor : List Atom :=
  [Atom.lit (l "<span"), Atom.starG notGt, Atom.lit (l "color"), Atom.starG notGt,
   Atom.lit (l ">"), Atom.grp dotCh, Atom.lit (l "</span>")]
def patClassAttr : List Atom :=
  [Atom.lit (l "class="), Atom.one quoteCh, Atom.grp dotCh, Atom.one quoteCh]
def patDataColor : List Atom :=
  [Atom.lit (l "data-color="), Atom.one quoteCh, Atom.grp dotCh, Atom.one quoteCh]

-- ## Extractors (unnamed module = second copy of productService.js)

def isUnavailable (item : List Char) : Bool := reTestAny patsUnavail item

def textOf (item : List Char) : List Char := trimJs (replAll patTag [] item)

def keptGroup : Option (List Char × Option (List Char)) → Option (List Char)
  | some (_, some g) => if g.isEmpty then none else some g
  | _ => none

def sizeContainersOf (html : List Char) : List (List Char) :=
  [keptGroup (reMatch patSelectSize html), keptGroup (reMatch patDivSize html),
   keptGroup (reMatch patUlSize html)].filterMap id

def sizeItemsOf (container : List Char) : List (List Char) :=
  searchAll patOption container ++ searchAll patLi container ++ searchAll patButton container ++
    searchAll patAnchor container ++ searchAll patDivOption container

def sizeFromOption (includeUnavailable : Bool) (acc : List (List Char)) (item : List Char) :
    List (List Char) :=
  if !includeUnavailable && isUnavailable item then acc
  else
    let text := textOf item
    if text.isEmpty || hasSub (l "Select") text || hasSub (l "Choose") text then acc
    else
      let acc1 := acc ++ [text]
      match reMatch patValue item with
      | some (_, some v) =>
        if !v.isEmpty && !allDigits v && !hasSub (l "select") v && decide (v.length < 10) then
          acc1 ++ [v]
        else acc1
      | _ => acc1

def optionsFilter (s : List Char) : Bool :=
  !s.isEmpty && decide (s.length < 20) && !hasSub (l "select") s && !hasSub (l "choose") s

def extractSizeOptions (html : List Char) (includeUnavailable : Bool) : List (List Char) :=
  let raw := (sizeContainersOf html).foldl
    (fun acc c => (sizeItemsOf c).foldl (sizeFromOption includeUnavailable) acc) []
  (dedupFirst raw).filter optionsFilter

def colorKeywords : List (List Char) :=
  [l "red", l "blue", l "green", l "yellow", l "orange", l "purple", l "pink", l "brown",
   l "black", l "white", l "gray", l "grey", l "navy", l "teal", l "gold", l "silver",
   l "beige", l "burgundy", l "turquoise", l "lavender", l "cream", l "khaki", l "olive"]

def colorContainersOf (html : List Char) : List (List Char) :=
  [keptGroup (reMatch patSelectColor html), keptGroup (reMatch patDivColor html),
   keptGroup (reMatch patUlColor html), keptGroup (reMatch patDivSwatch html)].filterMap id

def colorItemsOf (container : List Char) : List (List Char) :=
  searchAll patOption container ++ searchAll patLi container ++ searchAll patButton container ++
    searchAll patAnchor container ++ searchAll patDivSwatchItem container ++
    searchAll patSpanColor container

def colorFromOption (acc : List (List Char)) (item : List Char) : List (List Char) :=
  if isUnavailable item then acc
  else
    let text := textOf item
    let acc1 :=
      if !text.isEmpty && !hasSub (l "Select") text && !hasSub (l "Choose") text &&
          (colorKeywords.any (fun k => hasSub k (lowerL text)) || decide (text.length < 15)) then
        acc ++ [text]
      else acc
    let acc2 :=
      match reMatch patStyleBg item with
      | some (_, some sv) => if sv.isEmpty then acc1 else acc1 ++ [trimJs sv]
      | _ => acc1
    let acc3 :=
      match reMatch patClassAttr item with
      | some (_, some cl) =>
        if cl.isEmpty then acc2
        else
          (splitWs cl).foldl (fun a tok =>
            if colorKeywords.any (fun k => hasSub k (lowerL tok)) then
              match colorKeywords.find? (fun k => hasSub k (lowerL tok)) with
              | some name => if a.contains name then a else a ++ [name]
              | none => a
            else a) acc2
      | _ => acc2
    match reMatch patDataColor item with
    | some (_, some dc) => if dc.isEmpty then acc3 else acc3 ++ [dc]
    | _ => acc3

def extractColorOptions (html : List Char) : List (List Char) :=
  let raw := (colorContainersOf html).foldl
    (fun acc c => (colorItemsOf c).foldl colorFromOption acc) []
  (dedupFirst raw).filter optionsFilter

-- ## Prompt assembler

def titleMatchOf (html : List Char) : Option (List Char × Option (List Char)) :=
  firstSome [reMatch patH1 html, reMatch patTitleTag html, reMatch patDivProductTitle html]
def priceMatchOf (html : List Char) : Option (List Char × Option (List Char)) :=
  firstSome [reMatch patPriceSpan html, reMatch patPriceDiv html, reMatch patDollar html]
def descMatchOf (html : List Char) : Option (List Char × Option (List Char)) :=
  firstSome [reMatch patDescDiv html, reMatch patMetaDesc html]
def catMatchOf (html : List Char) : Option (List Char × Option (List Char)) :=
  firstSome [reMatch patNavBread html, reMatch patMetaCat html]

def productInfoLines (html : List Char) : List (List Char) :=
  let i1 : List (List Char) :=
    match titleMatchOf html with
    | some (_, some g) => [l "PRODUCT TITLE: " ++ trimJs g]
    | _ => []
  let i2 := i1 ++
    (match priceMatchOf html with
     | some (full, cap) =>
       let pstr := match cap with
         | some g => if g.isEmpty then full else g
         | none => full
       [l "PRODUCT PRICE: " ++ pstr]
     | none => [])
  let sizes := extractSizeOptions html false
  let i3 := i2 ++ (if sizes.isEmpty then [] else [l "AVAILABLE SIZE OPTIONS: " ++ joinSep (l ", ") sizes])
  let colors := extractColorOptions html
  let i4 := i3 ++ (if colors.isEmpty then [] else [l "AVAILABLE COLOR OPTIONS: " ++ joinSep (l ", ") colors])
  let i5 := i4 ++
    (match descMatchOf html with
     | some (_, some g) =>
       [l "PRODUCT DESCRIPTION: " ++ (trimJs (replAll patTag (l " ") g)).take 200 ++ l "..."]
     | _ => [])
  i5 ++
    (match catMatchOf html with
     | some (_, some g) => [l "PRODUCT CATEGORY: " ++ trimJs (replAll patTag (l " ") g)]
     | _ => [])

def extractProductInfo (html url : List Char) : List Char :=
  let info := productInfoLines html
  if 2 ≤ info.length then
    l "\nPRODUCT URL: " ++ url ++ l "\n" ++ joinSep (l "\n") info ++
      l "\n\nADDITIONAL HTML SNIPPETS:\n" ++ html.take 2000 ++ l "\n    "
  else
    l "\nPRODUCT URL: " ++ url ++ l "\nRAW HTML:\n" ++ html.take 4000 ++ l "\n  "

-- ## JSON

inductive Json where
  | null : Json
  | bool (b : Bool) : Json
  | num (lexeme : List Char) : Json
  | str (s : List Char) : Json
  | arr (elems : List Json) : Json
  | obj (fields : List (List Char × Json)) : Json

def skipWs (cs : List Char) : List Char :=
  cs.dropWhile (fun c => c == ' ' || c == '\t' || c == '\n' || c == '\r')

def hexVal (c : Char) : Option Nat :=
  let n := c.toNat
  if 48 ≤ n ∧ n ≤ 57 then some (n - 48)
  else if 97 ≤ n ∧ n ≤ 102 then some (n - 87)
  else if 65 ≤ n ∧ n ≤ 70 then some (n - 55)
  else none

def parseJStringAux : Nat → List Char → Option (List Char × List Char)
  | 0, _ => none
  | fuel + 1, cs =>
    match cs with
    | [] => none
    | '"' :: rest => some ([], rest)
    | '\\' :: rest =>
      (match rest with
       | [] => none
       | e :: rest2 =>
         if e == '"' then (parseJStringAux fuel rest2).map (fun r => ('"' :: r.1, r.2))
         else if e == '\\' then (parseJStringAux fuel rest2).map (fun r => ('\\' :: r.1, r.2))
         else if e == '/' then (parseJStringAux fuel rest2).map (fun r => ('/' :: r.1, r.2))
         else if e == 'n' then (parseJStringAux fuel rest2).map (fun r => ('\n' :: r.1, r.2))
         else if e == 't' then (parseJStringAux fuel rest2).map (fun r => ('\t' :: r.1, r.2))
         else if e == 'r' then (parseJStringAux fuel rest2).map (fun r => ('\r' :: r.1, r.2))
         else if e == 'b' then (parseJStringAux fuel rest2).map (fun r => ('\x08' :: r.1, r.2))
         else if e == 'f' then (parseJStringAux fuel rest2).map (fun r => ('\x0c' :: r.1, r.2))
         else if e == 'u' then
           match rest2 with
           | a :: b :: c :: d :: rest3 =>
             (match hexVal a, hexVal b, hexVal c, hexVal d with
              | some x, some y, some z, some w =>
                (parseJStringAux fuel rest3).map
                  (fun r => (Char.ofNat (4096 * x + 256 * y + 16 * z + w) :: r.1, r.2))
              | _, _, _, _ => none)
           | _ => none
         else none)
    | c :: rest =>
      if c.toNat < 32 then none
      else (parseJStringAux fuel rest).map (fun r => (c :: r.1, r.2))

def parseJNumber (cs : List Char) : Option (List Char × List Char) :=
  let sr : List Char × List Char :=
    match cs with
    | '-' :: t => ([('-' : Char)], t)
    | _ => ([], cs)
  match sr.2 with
  | [] => none
  | c :: _ =>
    if !c.isDigit then none
    else
      let ir : List Char × List Char :=
        match sr.2 with
        | '0' :: t => ([('0' : Char)], t)
        | _ => (sr.2.takeWhile Char.isDigit, sr.2.dropWhile Char.isDigit)
      let fr : List Char × List Char :=
        match ir.2 with
        | '.' :: t =>
          if (t.takeWhile Char.isDigit).isEmpty then ([], ir.2)
          else ('.' :: t.takeWhile Char.isDigit, t.dropWhile Char.isDigit)
        | _ => ([], ir.2)
      let er : List Char × List Char :=
        match fr.2 with
        | e :: t =>
          if e == 'e' || e == 'E' then
            match t with
            | s :: t2 =>
              if s == '+' || s == '-' then
                if (t2.takeWhile Char.isDigit).isEmpty then ([], fr.2)
                else (e :: s :: t2.takeWhile Char.isDigit, t2.dropWhile Char.isDigit)
              else
                if (t.takeWhile Char.isDigit).isEmpty then ([], fr.2)
                else (e :: t.takeWhile Char.isDigit, t.dropWhile Char.isDigit)
            | [] => ([], fr.2)
          else ([], fr.2)
        | [] => ([], fr.2)
      some (sr.1 ++ ir.1 ++ fr.1 ++ er.1, er.2)

def parseMembersLoop (pv : List Char → Option (Json × List Char)) :
    Nat → List Char → Option (List (List Char × Json) × List Char)
  | 0, _ => none
  | fuel + 1, cs =>
    match skipWs cs with
    | '"' :: rest =>
      (match parseJStringAux (rest.length + 1) rest with
       | none => none
       | some (k, cs1) =>
         match skipWs cs1 with
         | ':' :: cs2 =>
           (match pv cs2 with
            | none => none
            | some (v, cs3) =>
              match skipWs cs3 with
              | ',' :: cs4 => (parseMembersLoop pv fuel cs4).map (fun r => ((k, v) :: r.1, r.2))
              | '}' :: cs4 => some ([(k, v)], cs4)
              | _ => none)
         | _ => none)
    | _ => none

def parseElemsLoop (pv : List Char → Option (Json × List Char)) :
    Nat → List Char → Option (List Json × List Char)
  | 0, _ => none
  | fuel + 1, cs =>
    match pv cs with
    | none => none
    | some (v, cs1) =>
      match skipWs cs1 with
      | ',' :: cs2 => (parseElemsLoop pv fuel cs2).map (fun r => (v :: r.1, r.2))
      | ']' :: cs2 => some ([v], cs2)
      | _ => none

def parseJValue : Nat → List Char → Option (Json × List Char)
  | 0, _ => none
  | fuel + 1, cs0 =>
    let cs := skipWs cs0
    match cs with
    | [] => none
    | '{' :: rest =>
      (match skipWs rest with
       | '}' :: r2 => some (Json.obj [], r2)
       | _ => (parseMembersLoop (fun t => parseJValue fuel t) (rest.length + 1) rest).map
           (fun r => (Json.obj r.1, r.2)))
    | '[' :: rest =>
      (match skipWs rest with
       | ']' :: r2 => some (Json.arr [], r2)
       | _ => (parseElemsLoop (fun t => parseJValue fuel t) (rest.length + 1) rest).map
           (fun r => (Json.arr r.1, r.2)))
    | '"' :: rest => (parseJStringAux (rest.length + 1) rest).map (fun r => (Json.str r.1, r.2))
    | 't' :: _ => if csStarts (l "true") cs then some (Json.bool true, cs.drop 4) else none
    | 'f' :: _ => if csStarts (l "false") cs then some (Json.bool false, cs.drop 5) else none
    | 'n' :: _ => if csStarts (l "null") cs then some (Json.null, cs.drop 4) else none
    | _ => (parseJNumber cs).map (fun r => (Json.num r.1, r.2))

/-- Model of JSON.parse; numbers keep their decimal lexeme. -/
def jsonParse (cs : List Char) : Option Json :=
  match parseJValue (cs.length + 1) cs with
  | some (v, rest) => if (skipWs rest).isEmpty then some v else none
  | none => none

/-- Model of content.match of the brace regex: from the first opening brace
to the last closing brace after it, when both exist. -/
def jsonSpanMatch (cs : List Char) : Option (List Char) :=
  match cs.findIdx? (· == '{') with
  | none => none
  | some i =>
    let rest := cs.drop i
    match (rest.reverse.findIdx? (· == '}')).map (fun j => rest.length - 1 - j) with
    | some j => some (rest.take (j + 1))
    | none => none


-- ## Fallback records and the completion-response ladder

def getField : Json → List Char → Option Json
  | Json.obj fs, k => (fs.find? (fun f => f.1 == k)).map (fun f => f.2)
  | _, _ => none

def fallbackUnnamed (url : List Char) : Json :=
  Json.obj
    [(l "url", Json.str url),
     (l "title", Json.str (l "Product Title Not Extracted")),
     (l "category", Json.str (l "Unknown")),
     (l "attributes", Json.obj [(l "colorOptions", Json.arr []), (l "sizeOptions", Json.arr [])]),
     (l "rawPrice", Json.num (l "0"))]

def fallbackService (url : List Char) : Json :=
  Json.obj
    [(l "url", Json.str url),
     (l "title", Json.str (l "Product Title Not Extracted")),
     (l "category", Json.str (l "Unknown")),
     (l "attributes", Json.obj []),
     (l "rawPrice", Json.num (l "0"))]

def errorFallbackUnnamed (url msg : List Char) : Json :=
  Json.obj
    [(l "url", Json.str url),
     (l "title", Json.str (l "Error: " ++ msg.take 30)),
     (l "category", Json.str (l "Unknown")),
     (l "attributes", Json.obj [(l "colorOptions", Json.arr []), (l "sizeOptions", Json.arr [])]),
     (l "rawPrice", Json.num (l "0"))]

def errorFallbackService (url msg : List Char) : Json :=
  Json.obj
    [(l "url", Json.str url),
     (l "title", Json.str (l "Error: " ++ msg.take 30)),
     (l "category", Json.str (l "Error")),
     (l "attributes", Json.obj []),
     (l "rawPrice", Json.num (l "0"))]

def parseCompletionUnnamed (content url : List Char) : Json :=
  match jsonParse content with
  | some v => v
  | none =>
    match jsonSpanMatch content with
    | some s =>
      (match jsonParse s with
       | some v => v
       | none => fallbackUnnamed url)
    | none => fallbackUnnamed url

def parseCompletionService (content url : List Char) : Json :=
  match jsonParse content with
  | some v => v
  | none =>
    match jsonSpanMatch content with
    | some s =>
      (match jsonParse s with
       | some v => v
       | none => fallbackService url)
    | none => fallbackService url

def extractProductDataUnnamed (html url apiKey : List Char)
    (outcome : Except (List Char) (List Char)) : Json :=
  match outcome with
  | Except.ok content => parseCompletionUnnamed content url
  | Except.error msg => errorFallbackUnnamed url msg

def extractProductDataService (html url apiKey : List Char)
    (outcome : Except (List Char) (List Char)) : Json :=
  match outcome with
  | Except.ok content => parseCompletionService content url
  | Except.error msg => errorFallbackService url msg

-- ## Server model

inductive Action where
  | fetch : Action
  | completion : Action
deriving DecidableEq

structure HttpResponse where
  status : Nat
  body : Json

def jsTruthy : Option (List Char) → Bool
  | none => false
  | some t => !t.isEmpty

def validationError : Json :=
  Json.obj [(l "error", Json.str (l "Missing required parameters: url and openaiApiKey are required"))]

def fetchProductPage (axiosResult : Except (List Char) (List Char)) :
    Except (List Char) (List Char) :=
  match axiosResult with
  | Except.ok d => Except.ok d
  | Except.error m => Except.error (l "Failed to fetch product page: " ++ m)

def handleParseProduct (url openaiApiKey : Option (List Char))
    (axiosResult completionOutcome : Except (List Char) (List Char)) :
    HttpResponse × List Action :=
  if jsTruthy url && jsTruthy openaiApiKey then
    match fetchProductPage axiosResult with
    | Except.error m =>
      (⟨500, Json.obj [(l "error", Json.str (l "Failed to process product URL")),
                       (l "message", Json.str m)]⟩, [Action.fetch])
    | Except.ok page =>
      (⟨200, extractProductDataService page (url.getD []) (openaiApiKey.getD []) completionOutcome⟩,
       [Action.fetch, Action.completion])
  else (⟨400, validationError⟩, [])

-- ## Example inputs used by the claims

/-- The completion response of the specification example for the repair path. -/
def exRepair : List Char :=
  l "Here is the JSON: \x7b\"url\":\"x\",\"title\":\"y\",\"category\":\"z\",\"attributes\":\x7b\x7d,\"rawPrice\":1\x7d"

/-- The parsed value of the object embedded in exRepair. -/
def exRepairValue : Json :=
  Json.obj
    [(l "url", Json.str (l "x")), (l "title", Json.str (l "y")),
     (l "category", Json.str (l "z")), (l "attributes", Json.obj []),
     (l "rawPrice", Json.num (l "1"))]

/-- A select list with three options, one of which is marked sold out. -/
def exSizeSelect : List Char :=
  l "<select size=s><option>S</option><option>M</option><option>Sold Out</option></select>"

/-- A color container whose only item matches no vocabulary color name. -/
def exColorDiv : List Char :=
  l "<div color=c><button style=\"background: #zz\">X</button></div>"

/-- Formalization of the claim that the assembled prompt has a globally
bounded length, quantifying over all inputs. -/
def promptOutputCapped : Prop :=
  ∃ C : Nat, ∀ html url : List Char, (extractProductInfo html url).length ≤ C

-- ## Helper lemmas

theorem dedupFirstAux_spec (xs : List (List Char)) :
    ∀ seen, (dedupFirstAux seen xs).Nodup ∧ ∀ a ∈ dedupFirstAux seen xs, a ∉ seen := by
  induction xs with
  | nil =>
    intro seen
    refine ⟨by simp [dedupFirstAux], ?_⟩
    intro a ha
    simp [dedupFirstAux] at ha
  | cons x xs ih =>
    intro seen
    rw [dedupFirstAux]
    split
    case isTrue h => exact ih seen
    case isFalse h =>
      refine ⟨?_, ?_⟩
      · rw [List.nodup_cons]
        exact ⟨fun hmem => (ih (x :: seen)).2 x hmem (List.mem_cons_self x seen),
               (ih (x :: seen)).1⟩
      · intro a ha
        rcases List.mem_cons.mp ha with rfl | ha'
        · exact h
        · exact fun hseen => (ih (x :: seen)).2 a ha' (List.mem_cons_of_mem x hseen)

theorem dedupFirst_nodup (xs : List (List Char)) : (dedupFirst xs).Nodup :=
  (dedupFirstAux_spec xs []).1

theorem of_optionsFilter {s : List Char} (hp : optionsFilter s = true) :
    s ≠ [] ∧ s.length < 20 := by
  unfold optionsFilter at hp
  simp only [Bool.and_eq_true, Bool.not_eq_true', decide_eq_true_eq] at hp
  exact ⟨fun hnil => by simp [hnil] at hp, hp.1.1.2⟩

theorem jsTruthy_of_ne (t : List Char) (h : t ≠ []) : jsTruthy (some t) = true := by
  cases t with
  | nil => exact absurd rfl h
  | cons a as => rfl

-- ## Claims

/-- C4: when url or openaiApiKey is absent or empty, the endpoint answers 400
with the fixed error envelope regardless of the other field, and performs
neither the page fetch nor the completion call (its action trace is empty). -/
theorem c4_validation_rejects_missing_or_empty
    (url openaiApiKey : Option (List Char))
    (axiosResult completionOutcome : Except (List Char) (List Char))
    (h : jsTruthy url = false ∨ jsTruthy openaiApiKey = false) :
    handleParseProduct url openaiApiKey axiosResult completionOutcome =
      (⟨400, validationError⟩, []) := by
  rcases h with h | h <;> simp [handleParseProduct, h]

theorem c4_witness :
    jsTruthy none = false ∧
      handleParseProduct none (some (l "sk-key")) (Except.ok (l "<p>")) (Except.ok (l "ok")) =
        (⟨400, validationError⟩, []) :=
  ⟨rfl, c4_validation_rejects_missing_or_empty none (some (l "sk-key")) _ _ (Or.inl rfl)⟩

/-- C5: when validation passes but the page fetch throws, the endpoint answers
500 with error field Failed to process product URL and a message that is the
underlying fetch error text prefixed by Failed to fetch product page, so the
underlying text is contained in (is a suffix of) the message. -/
theorem c5_fetch_failure_gives_500
    (url openaiApiKey m : List Char) (hu : url ≠ []) (hk : openaiApiKey ≠ [])
    (completionOutcome : Except (List Char) (List Char)) :
    handleParseProduct (some url) (some openaiApiKey) (Except.error m) completionOutcome =
      (⟨500, Json.obj [(l "error", Json.str (l "Failed to process product URL")),
                       (l "message", Json.str (l "Failed to fetch product page: " ++ m))]⟩,
       [Action.fetch])
    ∧ m <:+ (l "Failed to fetch product page: " ++ m) := by
  refine ⟨?_, ⟨l "Failed to fetch product page: ", rfl⟩⟩
  simp [handleParseProduct, jsTruthy_of_ne url hu, jsTruthy_of_ne openaiApiKey hk,
    fetchProductPage]

theorem c5_witness :
    (l "https://x.test") ≠ [] ∧ (l "sk-key") ≠ [] ∧
      handleParseProduct (some (l "https://x.test")) (some (l "sk-key"))
          (Except.error (l "getaddrinfo ENOTFOUND x.test")) (Except.ok (l "ok")) =
        (⟨500, Json.obj [(l "error", Json.str (l "Failed to process product URL")),
                         (l "message", Json.str (l "Failed to fetch product page: getaddrinfo ENOTFOUND x.test"))]⟩,
         [Action.fetch]) :=
  ⟨by decide, by decide,
   (c5_fetch_failure_gives_500 (l "https://x.test") (l "sk-key")
      (l "getaddrinfo ENOTFOUND x.test") (by decide) (by decide) (Except.ok (l "ok"))).1⟩

/-- C1: once validation passes and the fetch succeeds, an error thrown in the
completion stage is absorbed: the endpoint still answers 200 with the error
fallback record whose title is the string Error: followed by the error message
truncated to 30 characters; both copies of extractProductData behave this way,
and neither can propagate an exception since both are total functions. -/
theorem c1_completion_error_absorbed
    (url openaiApiKey page msg : List Char) (hu : url ≠ []) (hk : openaiApiKey ≠ []) :
    handleParseProduct (some url) (some openaiApiKey) (Except.ok page) (Except.error msg) =
      (⟨200, errorFallbackService url msg⟩, [Action.fetch, Action.completion])
    ∧ getField (errorFallbackService url msg) (l "title") =
        some (Json.str (l "Error: " ++ msg.take 30))
    ∧ extractProductDataUnnamed page url openaiApiKey (Except.error msg) =
        errorFallbackUnnamed url msg
    ∧ getField (errorFallbackUnnamed url msg) (l "title") =
        some (Json.str (l "Error: " ++ msg.take 30)) := by
  refine ⟨?_, rfl, rfl, rfl⟩
  simp [handleParseProduct, jsTruthy_of_ne url hu, jsTruthy_of_ne openaiApiKey hk,
    fetchProductPage, extractProductDataService]

theorem c1_witness :
    (l "https://x.test") ≠ [] ∧ (l "sk-key") ≠ [] ∧
      (handleParseProduct (some (l "https://x.test")) (some (l "sk-key"))
          (Except.ok (l "<p>hi</p>"))
          (Except.error (l "AuthenticationError: bad key provided"))).1.status = 200 :=
  ⟨by decide, by decide, by
    rw [(c1_completion_error_absorbed (l "https://x.test") (l "sk-key") (l "<p>hi</p>")
      (l "AuthenticationError: bad key provided") (by decide) (by decide)).1]⟩

/-- C2: the completion-response parser first tries a strict JSON parse of the
whole text, then on failure parses the brace span of the text (first opening
brace through the last closing brace), and only then falls back to the static
record; on the specification example the embedded object is recovered through
the span path. -/
theorem c2_parse_ladder (content url : List Char) :
    (∀ v, jsonParse content = some v → parseCompletionUnnamed content url = v)
    ∧ (∀ s v, jsonParse content = none → jsonSpanMatch content = some s →
        jsonParse s = some v → parseCompletionUnnamed content url = v)
    ∧ (jsonParse content = none → jsonSpanMatch content = none →
        parseCompletionUnnamed content url = fallbackUnnamed url)
    ∧ (∀ s, jsonParse content = none → jsonSpanMatch content = some s →
        jsonParse s = none → parseCompletionUnnamed content url = fallbackUnnamed url)
    ∧ jsonParse exRepair = none
    ∧ parseCompletionUnnamed exRepair url = exRepairValue := by
  refine ⟨?_, ?_, ?_, ?_, rfl, rfl⟩
  · intro v hv; simp [parseCompletionUnnamed, hv]
  · intro s v h1 h2 h3; simp [parseCompletionUnnamed, h1, h2, h3]
  · intro h1 h2; simp [parseCompletionUnnamed, h1, h2]
  · intro s h1 h2 h3; simp [parseCompletionUnnamed, h1, h2, h3]

theorem c2_witness :
    jsonParse (l "\x7b\x7d") = some (Json.obj []) ∧
      parseCompletionUnnamed (l "\x7b\x7d") (l "u") = Json.obj [] :=
  ⟨rfl, (c2_parse_ladder (l "\x7b\x7d") (l "u")).1 (Json.obj []) rfl⟩

/-- C3 counterexample: the claim asserts the garbage fallback always carries
attributes with colorOptions and sizeOptions as empty arrays, but the
extractProductData copy in productService.js, run on unparsable garbage,
returns a record whose attributes object has no such keys at all. -/
theorem c3_counterexample_service_fallback_lacks_option_arrays :
    extractProductDataService (l "<p>") (l "u") (l "k") (Except.ok (l "not json at all")) =
      fallbackService (l "u")
    ∧ getField (fallbackService (l "u")) (l "attributes") = some (Json.obj [])
    ∧ getField (Json.obj []) (l "colorOptions") = none
    ∧ getField (Json.obj []) (l "sizeOptions") = none
    ∧ fallbackService (l "u") ≠ fallbackUnnamed (l "u") := by
  refine ⟨rfl, rfl, rfl, rfl, ?_⟩
  intro h
  simp [fallbackService, fallbackUnnamed, l] at h

/-- C3 amended: when the strict parse and the span parse of the completion
response both fail, the unnamed-module copy of extractProductData returns
exactly the claimed static fallback (attributes with empty colorOptions and
sizeOptions arrays), while the productService.js copy returns the same record
except that its attributes object is empty, without those keys. -/
theorem c3_amended_static_fallback (content url page key : List Char)
    (h1 : jsonParse content = none)
    (h2 : ∀ s, jsonSpanMatch content = some s → jsonParse s = none) :
    extractProductDataUnnamed page url key (Except.ok content) = fallbackUnnamed url
    ∧ extractProductDataService page url key (Except.ok content) = fallbackService url
    ∧ getField (fallbackUnnamed url) (l "url") = some (Json.str url)
    ∧ getField (fallbackUnnamed url) (l "title") =
        some (Json.str (l "Product Title Not Extracted"))
    ∧ getField (fallbackUnnamed url) (l "category") = some (Json.str (l "Unknown"))
    ∧ getField (fallbackUnnamed url) (l "attributes") =
        some (Json.obj [(l "colorOptions", Json.arr []), (l "sizeOptions", Json.arr [])])
    ∧ getField (fallbackUnnamed url) (l "rawPrice") = some (Json.num (l "0"))
    ∧ getField (fallbackService url) (l "attributes") = some (Json.obj []) := by
  refine ⟨?_, ?_, rfl, rfl, rfl, rfl, rfl, rfl⟩
  · cases hs : jsonSpanMatch content with
    | none => simp [extractProductDataUnnamed, parseCompletionUnnamed, h1, hs]
    | some sp => simp [extractProductDataUnnamed, parseCompletionUnnamed, h1, hs, h2 sp hs]
  · cases hs : jsonSpanMatch content with
    | none => simp [extractProductDataService, parseCompletionService, h1, hs]
    | some sp => simp [extractProductDataService, parseCompletionService, h1, hs, h2 sp hs]

theorem c3_witness :
    jsonParse (l "no json here") = none ∧
      extractProductDataUnnamed (l "<p>") (l "u") (l "k") (Except.ok (l "no json here")) =
        fallbackUnnamed (l "u") :=
  ⟨rfl,
   (c3_amended_static_fallback (l "no json here") (l "u") (l "<p>") (l "k") rfl
     (by
       intro s hs
       rw [show jsonSpanMatch (l "no json here") = none from rfl] at hs
       cases hs)).1⟩

/-- C10 counterexample: the two extractProductData copies are not behaviorally
equivalent; on the same unparsable completion outcome they return different
fallback records. -/
theorem c10_counterexample_fallback_records_differ :
    extractProductDataUnnamed (l "<p>") (l "u") (l "k") (Except.ok (l "???")) =
      fallbackUnnamed (l "u")
    ∧ extractProductDataService (l "<p>") (l "u") (l "k") (Except.ok (l "???")) =
        fallbackService (l "u")
    ∧ extractProductDataUnnamed (l "<p>") (l "u") (l "k") (Except.ok (l "???")) ≠
        extractProductDataService (l "<p>") (l "u") (l "k") (Except.ok (l "???")) := by
  refine ⟨rfl, rfl, ?_⟩
  intro h
  rw [show extractProductDataUnnamed (l "<p>") (l "u") (l "k") (Except.ok (l "???")) =
        fallbackUnnamed (l "u") from rfl,
      show extractProductDataService (l "<p>") (l "u") (l "k") (Except.ok (l "???")) =
        fallbackService (l "u") from rfl] at h
  simp [fallbackUnnamed, fallbackService, l] at h

/-- C10 amended: on the two successful parse tiers the two copies agree, and
their error fallbacks share the same truncated title, but the fallback records
differ: the unnamed copy uses category Unknown and attributes with empty
colorOptions and sizeOptions arrays, while the productService.js copy uses
category Error in the thrown case and an empty attributes object in both. -/
theorem c10_amended_partial_equivalence (page url key msg content : List Char) :
    (∀ v, jsonParse content = some v →
      extractProductDataUnnamed page url key (Except.ok content) = v ∧
        extractProductDataService page url key (Except.ok content) = v)
    ∧ (∀ s v, jsonParse content = none → jsonSpanMatch content = some s →
        jsonParse s = some v →
        extractProductDataUnnamed page url key (Except.ok content) = v ∧
          extractProductDataService page url key (Except.ok content) = v)
    ∧ extractProductDataUnnamed page url key (Except.error msg) = errorFallbackUnnamed url msg
    ∧ extractProductDataService page url key (Except.error msg) = errorFallbackService url msg
    ∧ getField (errorFallbackUnnamed url msg) (l "title") =
        getField (errorFallbackService url msg) (l "title")
    ∧ getField (errorFallbackUnnamed url msg) (l "category") = some (Json.str (l "Unknown"))
    ∧ getField (errorFallbackService url msg) (l "category") = some (Json.str (l "Error"))
    ∧ getField (errorFallbackUnnamed url msg) (l "attributes") =
        some (Json.obj [(l "colorOptions", Json.arr []), (l "sizeOptions", Json.arr [])])
    ∧ getField (errorFallbackService url msg) (l "attributes") = some (Json.obj []) := by
  refine ⟨?_, ?_, rfl, rfl, rfl, rfl, rfl, rfl, rfl⟩
  · intro v hv
    exact ⟨by simp [extractProductDataUnnamed, parseCompletionUnnamed, hv],
           by simp [extractProductDataService, parseCompletionService, hv]⟩
  · intro sp v h1 h2 h3
    exact ⟨by simp [extractProductDataUnnamed, parseCompletionUnnamed, h1, h2, h3],
           by simp [extractProductDataService, parseCompletionService, h1, h2, h3]⟩

theorem c10_witness :
    jsonParse (l "\x7b\x7d") = some (Json.obj []) ∧
      extractProductDataUnnamed (l "<p>") (l "u") (l "k") (Except.ok (l "\x7b\x7d")) =
        Json.obj [] ∧
      extractProductDataService (l "<p>") (l "u") (l "k") (Except.ok (l "\x7b\x7d")) =
        Json.obj [] :=
  ⟨rfl,
   ((c10_amended_partial_equivalence (l "<p>") (l "u") (l "k") (l "m") (l "\x7b\x7d")).1
      (Json.obj []) rfl).1,
   ((c10_amended_partial_equivalence (l "<p>") (l "u") (l "k") (l "m") (l "\x7b\x7d")).1
      (Json.obj []) rfl).2⟩

/-- C6: the size extractor excludes items matching the unavailability pattern,
discards placeholder labels containing Select or Choose, deduplicates
case-sensitively (its output has no duplicates), keeps only nonempty strings
shorter than 20 characters, and on a select list with three options of which
one reads Sold Out it returns exactly the other two. -/
theorem c6_size_extractor_behavior (html : List Char) (inc : Bool) :
    (extractSizeOptions html inc).Nodup
    ∧ (∀ s ∈ extractSizeOptions html inc, s ≠ [] ∧ s.length < 20)
    ∧ (∀ acc item, isUnavailable item = true → sizeFromOption false acc item = acc)
    ∧ (∀ acc item,
        hasSub (l "Select") (textOf item) = true ∨ hasSub (l "Choose") (textOf item) = true →
        sizeFromOption inc acc item = acc)
    ∧ extractSizeOptions exSizeSelect false = [l "S", l "M"] := by
  refine ⟨?_, ?_, ?_, ?_, rfl⟩
  · exact List.Nodup.filter _ (dedupFirst_nodup _)
  · intro s hs
    exact of_optionsFilter (List.of_mem_filter hs)
  · intro acc item h
    simp [sizeFromOption, h]
  · intro acc item h
    unfold sizeFromOption
    split
    · rfl
    · rcases h with h | h <;> simp [h]

theorem c6_witness :
    isUnavailable (l "<option>Sold Out</option>") = true ∧
      sizeFromOption false [] (l "<option>Sold Out</option>") = [] ∧
      extractSizeOptions exSizeSelect false = [l "S", l "M"] :=
  ⟨rfl, (c6_size_extractor_behavior [] false).2.2.1 [] (l "<option>Sold Out</option>") rfl,
   (c6_size_extractor_behavior [] false).2.2.2.2⟩

/-- C8 counterexample: the color extractor does not restrict its output to
vocabulary matches; on a concrete container it returns the item text X (added
because it is short) and the style background value zz-hash (added
unconditionally), neither of which contains any vocabulary color name. -/
theorem c8_counterexample_nonvocabulary_colors_returned :
    extractColorOptions exColorDiv = [l "X", l "#zz"]
    ∧ colorKeywords.all (fun k => !hasSub k (lowerL (l "X"))) = true
    ∧ colorKeywords.all (fun k => !hasSub k (lowerL (l "#zz"))) = true := ⟨rfl, rfl, rfl⟩

/-- C8 amended: the color extractor adds item text when it contains a
vocabulary color name or is shorter than 15 characters, adds inline style
background values and data-color values unconditionally, and adds the matched
vocabulary name for class tokens; its output is deduplicated and every
returned string is nonempty and shorter than 20 characters, and items marked
unavailable contribute nothing. -/
theorem c8_amended_color_extractor (html : List Char) :
    (extractColorOptions html).Nodup
    ∧ (∀ s ∈ extractColorOptions html, s ≠ [] ∧ s.length < 20)
    ∧ (∀ acc item, isUnavailable item = true → colorFromOption acc item = acc) := by
  refine ⟨?_, ?_, ?_⟩
  · exact List.Nodup.filter _ (dedupFirst_nodup _)
  · intro s hs
    exact of_optionsFilter (List.of_mem_filter hs)
  · intro acc item h
    simp [colorFromOption, h]

theorem c8_witness :
    (l "X") ∈ extractColorOptions exColorDiv ∧ (l "X") ≠ [] ∧ (l "X").length < 20 :=
  ⟨by decide,
   ((c8_amended_color_extractor exColorDiv).2.1 (l "X") (by decide)).1,
   ((c8_amended_color_extractor exColorDiv).2.1 (l "X") (by decide)).2⟩

/-- C9: every signal extractor is a total function of the markup (they are
plain Lean functions, so none can raise), and when none of the patterns
matches the prompt assembler still produces the well-formed raw-markup
fallback block instead of failing. -/
theorem c9_extractors_never_fail (html url : List Char)
    (hT : titleMatchOf html = none) (hP : priceMatchOf html = none)
    (hS : extractSizeOptions html false = []) (hC : extractColorOptions html = [])
    (hD : descMatchOf html = none) (hK : catMatchOf html = none) :
    productInfoLines html = []
    ∧ extractProductInfo html url =
        l "\nPRODUCT URL: " ++ url ++ l "\nRAW HTML:\n" ++ html.take 4000 ++ l "\n  " := by
  have hinfo : productInfoLines html = [] := by
    simp [productInfoLines, hT, hP, hS, hC, hD, hK]
  exact ⟨hinfo, by simp [extractProductInfo, hinfo]⟩

theorem c9_witness :
    titleMatchOf [] = none ∧ priceMatchOf [] = none ∧
      extractSizeOptions [] false = [] ∧ extractColorOptions [] = [] ∧
      descMatchOf [] = none ∧ catMatchOf [] = none ∧
      extractProductInfo [] (l "u") =
        l "\nPRODUCT URL: " ++ l "u" ++ l "\nRAW HTML:\n" ++ List.take 4000 [] ++ l "\n  " :=
  ⟨rfl, rfl, rfl, rfl, rfl, rfl,
   (c9_extractors_never_fail [] (l "u") rfl rfl rfl rfl rfl rfl).2⟩

/-- C7 counterexample: the assembled prompt length is not globally capped;
it grows at least linearly with the caller-supplied url, refuting the
claim that the total output length is bounded. -/
theorem c7_counterexample_no_global_cap : ¬ promptOutputCapped := by
  intro h
  obtain ⟨C, hC⟩ := h
  have h1 := hC [] (List.replicate (C + 1) 'a')
  have h2 : extractProductInfo [] (List.replicate (C + 1) 'a') =
      l "\nPRODUCT URL: " ++ List.replicate (C + 1) 'a' ++ l "\nRAW HTML:\n" ++
        List.take 4000 [] ++ l "\n  " := rfl
  rw [h2] at h1
  have e1 : (l "\nPRODUCT URL: ").length = 14 := rfl
  have e2 : (l "\nRAW HTML:\n").length = 11 := rfl
  have e3 : (l "\n  ").length = 3 := rfl
  have e4 : (List.take 4000 ([] : List Char)).length = 0 := rfl
  simp only [List.length_append, e1, e2, e3, e4, List.length_replicate] at h1
  omega

/-- C7 amended: with at least two signal lines found the assembler emits the
labeled block followed by the first 2000 characters of the markup, otherwise
the url plus the first 4000 characters of the markup; the markup excerpt is
capped at 2000 resp. 4000 characters, though the total output also grows with
the url and the extracted field lines. -/
theorem c7_amended_prompt_structure (html url : List Char) :
    (if 2 ≤ (productInfoLines html).length then
        extractProductInfo html url =
          l "\nPRODUCT URL: " ++ url ++ l "\n" ++ joinSep (l "\n") (productInfoLines html) ++
            l "\n\nADDITIONAL HTML SNIPPETS:\n" ++ html.take 2000 ++ l "\n    "
      else
        extractProductInfo html url =
          l "\nPRODUCT URL: " ++ url ++ l "\nRAW HTML:\n" ++ html.take 4000 ++ l "\n  ")
    ∧ (html.take 2000).length ≤ 2000 ∧ (html.take 4000).length ≤ 4000 := by
  refine ⟨?_, ?_, ?_⟩
  · split
    case isTrue h => simp only [extractProductInfo, if_pos h]
    case isFalse h => simp only [extractProductInfo, if_neg h]
  · simp [List.length_take_le]
  · simp [List.length_take_le]

end Unboxed
